import Mathlib

/-!
Verification development for the xous-core secure-boot loader
(src/loader/src/main.rs), the RISC-V trap dispatcher
(src/kernel/src/arch/riscv/irq.rs) and the cramium TRNG driver
(src/libs/cramium-hal/src/sce/trng.rs), as a shallow embedding in Lean 4.

Machine words are modelled as Nat with explicit reduction modulo 2^32 where
the source relies on 32-bit wrapping.  Hardware registers and the external
kernel collaborators (syscall handler, system services, page mapper) are
modelled as explicit inputs/oracles; every observable action the embedded
code performs on them is recorded in an explicit trace.
-/

set_option maxRecDepth 100000

namespace Xous

/-- Word-level wrapping addition, the 32-bit `usize`/`u32` semantics. -/
def wadd (a b : Nat) : Nat := (a + b) % 2 ^ 32

/-- Word-level wrapping subtraction, the 32-bit `usize`/`u32` semantics. -/
def wsub (a b : Nat) : Nat := (a + 2 ^ 32 - b % 2 ^ 32) % 2 ^ 32

/-- Left rotation of a 32-bit word by `r` bits (0 < r < 32). -/
def rotl32 (x r : Nat) : Nat :=
  ((x <<< r) % 2 ^ 32) ||| (x % 2 ^ 32 >>> (32 - r))

/-- Modelled from the spec: one block-mixing round of the MurmurHash3 x86-32
checksum used by `check_resume` (the repository file `loader/src/murmur3.rs`
is not among the provided sources; this is the standard per-word round of
murmur3-32 applied to a word-aligned buffer). -/
def murmur3Round (h k : Nat) : Nat :=
  let k := (k * 0xcc9e2d51) % 2 ^ 32
  let k := rotl32 k 15
  let k := (k * 0x1b873593) % 2 ^ 32
  let h := h ^^^ k
  let h := rotl32 h 13
  (h * 5 + 0xe6546b64) % 2 ^ 32

/-- Modelled from the spec: the murmur3-32 finalization mix. -/
def fmix32 (h : Nat) : Nat :=
  let h := h ^^^ (h >>> 16)
  let h := (h * 0x85ebca6b) % 2 ^ 32
  let h := h ^^^ (h >>> 13)
  let h := (h * 0xc2b2ae35) % 2 ^ 32
  h ^^^ (h >>> 16)

/-- Modelled from the spec: `murmur3_32(&buf, seed)` over a `&[u32]` buffer,
as called by `check_resume` with seed 0 (loader/src/murmur3.rs is not among
the provided sources).  The length xored in during finalization is the byte
length, i.e. four times the number of words. -/
def murmur3_32 (words : List Nat) (seed : Nat) : Nat :=
  fmix32 ((words.foldl murmur3Round (seed % 2 ^ 32)) ^^^ ((4 * words.length) % 2 ^ 32))

/-! ## Kernel argument tags and `read_initial_config` -/

/-- One tagged record of the kernel-argument stream: a four-character-coded
name, a byte size, and the payload words.  The iterator of `loader/src/args.rs`
(not among the provided sources) is modelled by presenting the stream directly
as the list of records it yields. -/
structure KernelArgument where
  name : Nat
  size : Nat
  data : List Nat
  deriving DecidableEq, Repr

/-- Little-endian u32 code of the tag name "XArg". -/
def xargTag : Nat := 0x67724158

/-- Little-endian u32 code of the tag name "MREx". -/
def mrexTag : Nat := 0x7845524D

/-- Little-endian u32 code of the tag name "Bflg". -/
def bflgTag : Nat := 0x676C6642

/-- Little-endian u32 code of the tag name "XKrn". -/
def xkrnTag : Nat := 0x6E724B58

/-- Little-endian u32 code of the tag name "IniE". -/
def inieTag : Nat := 0x45696E49

/-- Little-endian u32 code of the tag name "IniF". -/
def inifTag : Nat := 0x46696E49

/-- Test for an initial-process descriptor tag ("IniE" or "IniF"). -/
def isInitTag (t : KernelArgument) : Bool := t.name == inieTag || t.name == inifTag

/-- Fields of `BootConfig` (loader/src/bootconfig.rs is not among the provided
sources; the fields mutated by `read_initial_config` are modelled, per the
spec's Boot Configuration data model). -/
structure BootConfig where
  sram_start : Nat
  sram_size : Nat
  no_copy : Bool
  base_addr_null : Bool
  debug : Bool
  regionsData : List Nat
  init_process_count : Nat
  deriving DecidableEq, Repr

/-- Initial `BootConfig` contents (the `..Default::default()` of
`boot_sequence`). -/
def initialBootConfig : BootConfig :=
  { sram_start := 0, sram_size := 0, no_copy := false, base_addr_null := false,
    debug := false, regionsData := [], init_process_count := 0 }

/-- Panic causes of `read_initial_config`, one per `panic!`/`expect`/`assert!`
message in the source. -/
inductive ParseErr where
  | noInitialTag    -- "couldn't read initial tag"
  | badFirstTag     -- "XArg wasn't first tag, or was invalid size"
  | indexOutOfBounds -- the Rust index-out-of-bounds panic on an empty payload
  | kernelTwice     -- "kernel appears twice"
  | badKernelSize   -- "invalid XKrn size"
  | badInitSize     -- "invalid Init size"
  | noKernel        -- "no kernel definition"
  | noInitPrograms  -- "no initial programs found"
  deriving DecidableEq, Repr

/-- Boot-flag decoding of the "Bflg" arm of `read_initial_config`: bit 0
sets `no_copy`, bit 1 nulls the base address, bit 2 enables debug. -/
def applyBflg (cfg : BootConfig) (flags : Nat) : BootConfig :=
  let cfg := if flags &&& 1 != 0 then { cfg with no_copy := true } else cfg
  let cfg := if flags &&& 2 != 0 then { cfg with base_addr_null := true } else cfg
  if flags &&& 4 != 0 then { cfg with debug := true } else cfg

/-- Body of the `for tag in i` loop of `read_initial_config`, walking the tags
after the XArg header and carrying the `kernel_seen`/`init_seen` flags;
`pdSize` is `mem::size_of::<ProgramDescription>()` (loader/src/phase2.rs is
not among the provided sources, so the size is kept as a parameter).  The
Bflg arm indexes `tag.data[0]`, which panics when the payload is empty. -/
def readTagsLoop (pdSize : Nat) :
    List KernelArgument → BootConfig → Bool → Bool → Except ParseErr BootConfig
  | [], cfg, kseen, iseen =>
    if !kseen then .error .noKernel
    else if !iseen then .error .noInitPrograms
    else .ok cfg
  | t :: rest, cfg, kseen, iseen =>
    if t.name == mrexTag then
      readTagsLoop pdSize rest
        { cfg with regionsData := t.data.take ((t.size / 16) * 4) } kseen iseen
    else if t.name == bflgTag then
      -- `tag.data[0]` panics (index out of bounds) on a size-0 Bflg tag
      match t.data with
      | [] => .error .indexOutOfBounds
      | flags :: _ => readTagsLoop pdSize rest (applyBflg cfg flags) kseen iseen
    else if t.name == xkrnTag then
      if kseen then .error .kernelTwice
      else if t.size != pdSize then .error .badKernelSize
      else readTagsLoop pdSize rest cfg true iseen
    else if isInitTag t then
      if t.size < 4 then .error .badInitSize
      else readTagsLoop pdSize rest
        { cfg with init_process_count := cfg.init_process_count + 1 } kseen true
    else
      readTagsLoop pdSize rest cfg kseen iseen

/-- Translation of `read_initial_config` (loader/src/main.rs).  The first tag
must be "XArg" of size exactly 20; its payload words 2 and 3 supply
`sram_start` and `sram_size` (the indexing `xarg.data[2]`/`xarg.data[3]`
panics when the payload holds fewer than four words; the iterator yields
five words for a size-20 tag, but the model stays faithful on every input).
Panics become `Except.error`. -/
def read_initial_config (pdSize : Nat) (tags : List KernelArgument)
    (cfg0 : BootConfig) : Except ParseErr BootConfig :=
  match tags with
  | [] => .error .noInitialTag
  | xarg :: rest =>
    if xarg.name != xargTag || xarg.size != 20 then .error .badFirstTag
    else if xarg.data.length < 4 then .error .indexOutOfBounds
    else
      let cfg := { cfg0 with
        sram_start := xarg.data.getD 2 0, sram_size := xarg.data.getD 3 0 }
      readTagsLoop pdSize rest cfg false false

/-! ## The suspend marker and `check_resume` -/

/-- Marker page contents as exactly `WORDS_PER_PAGE = 1024` words: the source
reads the page through `*mut [u32; 1024]`, so a modelled content list is
padded with zeroes (or truncated) to that fixed size. -/
def pageOf (marker : List Nat) : List Nat :=
  marker.take 1024 ++ List.replicate (1024 - marker.length) 0

/-- Contents of `hashbuf` for a given sector just before the hash of that
sector is computed in `check_resume`: the sector's first 127 words, with
words 1 and 2 of sector 0 overwritten by the freshly-read hardware seed
words (`hashbuf[1] = seed0; hashbuf[2] = seed1`).  Sectors other than 0 are
hashed exactly as stored. -/
def patchedSector (marker : List Nat) (seed0 seed1 : Nat) (s : Nat) : List Nat :=
  let raw := ((pageOf marker).drop (s * 128)).take 127
  if s = 0 then (raw.set 1 seed0).set 2 seed1 else raw

/-- Checksum word stored at the end of sector `s` of the suspend marker
(word index `(s+1)*128 - 1`). -/
def storedChecksum (marker : List Nat) (s : Nat) : Nat :=
  (pageOf marker).getD ((s + 1) * 128 - 1) 0

/-- Per-sector comparison of `check_resume`: the recomputed
`murmur3_32(&hashbuf, 0)` must equal the stored checksum word. -/
def sectorMatches (marker : List Nat) (seed0 seed1 : Nat) (s : Nat) : Bool :=
  murmur3_32 (patchedSector marker seed0 seed1 s) 0 == storedChecksum marker s

/-- Translation of `check_resume` (loader/src/main.rs).  The marker page (1024
words, 8 sectors of 128 words) lives at `sram_start + sram_size - 3*PAGE_SIZE`;
its contents are the `marker` input.  `seed0`/`seed1` are the freshly-read
hardware seed registers.  Returns `((clean, was_forced_suspend, pid), marker')`
where `marker'` is the marker page contents after the call: the whole page is
zeroed unconditionally.  `clean` starts `true` and is cleared by any sector
whose recomputed hash differs from the stored checksum; `pid` is word 3 of
sector 0 (unchanged by the seed patch, which touches words 1 and 2 only). -/
def check_resume (marker : List Nat) (seed0 seed1 : Nat) :
    (Bool × Bool × Nat) × List Nat :=
  let wasForced := (pageOf marker).getD 0 0 != 0
  let clean := (List.range 8).all (fun s => sectorMatches marker seed0 seed1 s)
  let pid := (pageOf marker).getD 3 0
  ((clean, wasForced, pid), List.replicate 1024 0)

/-! ## `boot_sequence`, the resume SATP patch and `rust_entry` -/

/-- Translation of the resume-path SATP patch of `boot_sequence`:
`((*backup_args)[3] as usize) & 0x803F_FFFF | (((susres_pid as usize) & 0x1FF) << 22)`. -/
def resume_satp (backupSatp pid : Nat) : Nat :=
  ((backupSatp % 2 ^ 32) &&& 0x803FFFFF) ||| ((pid &&& 0x1FF) <<< 22)

/-- Statement of the spec's formula for the resume-path SATP patch, written
from the spec sentence `satp = (backup_satp & 0x803F_FFFF) | (pid << 22)`
verbatim (in 32-bit arithmetic), for comparison with `resume_satp` above. -/
def resume_satp_spec_formula (backupSatp pid : Nat) : Nat :=
  ((backupSatp % 2 ^ 32) &&& 0x803FFFFF) ||| ((pid <<< 22) % 2 ^ 32)

/-- Modelled from the spec: `KERNEL_ARGUMENT_OFFSET` of loader/src/consts.rs
(not among the provided sources); a fixed virtual-address offset added to the
kernel-argument physical offsets.  Its numeric value is irrelevant to the
claims. -/
def KERNEL_ARGUMENT_OFFSET : Nat := 0x20000000

/-- Results of the external phase-1/phase-2 collaborators consumed by the cold
boot path of `boot_sequence`: the locations of the constructed structures and
the kernel process record `cfg.processes[0]`. -/
structure ColdBootInfo where
  initSize : Nat
  argsBase : Nat
  processesPtr : Nat
  rptPtr : Nat
  satp : Nat
  entrypoint : Nat
  sp : Nat
  deriving DecidableEq, Repr

/-- Seven scalar parameters (plus the `clean` flag) passed to `start_kernel`. -/
structure KernelEntry where
  argOffset : Nat
  ipOffset : Nat
  rptOffset : Nat
  satp : Nat
  entrypoint : Nat
  sp : Nat
  debug : Bool
  clean : Bool
  deriving DecidableEq, Repr

/-- Observable actions of the loader, in program order. -/
inductive LoaderAction where
  | parseKernelArgs
  | checkResumeMarker
  | clearRam
  | phase1
  | phase2
  | writeBackupArgs
  | startKernel
  deriving DecidableEq, Repr

/-- Terminal outcome of a loader run. -/
inductive LoaderOutcome where
  | hang                      -- the post-validation-failure infinite loop
  | panicked (e : ParseErr)   -- a loader panic (the panic handler loops)
  | started (entry : KernelEntry)
  deriving DecidableEq, Repr

/-- Final state of one loader run: the outcome, the trace of actions
performed, and the contents of the backup-argument region at
`BACKUP_ARGS_ADDR` and of the suspend-marker page after the run. -/
structure LoaderResult where
  outcome : LoaderOutcome
  trace : List LoaderAction
  backup : List Nat
  marker : List Nat
  deriving DecidableEq, Repr

/-- Translation of `boot_sequence` (loader/src/main.rs), with the `resume`
feature enabled.  Inputs: the tag stream, the suspend-marker page contents,
the hardware seed words, the backup-argument region contents, and the
phase-1/phase-2 collaborator results `cold`.  On a parse failure the loader
panics before the resume check, the RAM clear and the page-table phases; on a
cold boot it clears RAM, runs the phases, writes the backup snapshot and
starts the kernel; on a clean resume it starts the kernel from the seven
backed-up parameters with the SATP patched by `resume_satp`. -/
def boot_sequence (pdSize : Nat) (tags : List KernelArgument)
    (marker : List Nat) (seed0 seed1 : Nat) (backup : List Nat)
    (cold : ColdBootInfo) : LoaderResult :=
  match read_initial_config pdSize tags initialBootConfig with
  | .error e => ⟨.panicked e, [.parseKernelArgs], backup, marker⟩
  | .ok cfg =>
    let res := check_resume marker seed0 seed1
    let clean := res.1.1
    let pid := res.1.2.2
    let marker' := res.2
    if !clean then
      let krnStructStart := wsub (wadd cfg.sram_start cfg.sram_size) cold.initSize
      let argOffset := wadd (wsub cold.argsBase krnStructStart) KERNEL_ARGUMENT_OFFSET
      let ipOffset := wadd (wsub cold.processesPtr krnStructStart) KERNEL_ARGUMENT_OFFSET
      let rptOffset := wadd (wsub cold.rptPtr krnStructStart) KERNEL_ARGUMENT_OFFSET
      let entry : KernelEntry :=
        ⟨argOffset, ipOffset, rptOffset, cold.satp % 2 ^ 32, cold.entrypoint % 2 ^ 32,
         cold.sp % 2 ^ 32, cfg.debug, false⟩
      let backup' := [argOffset, ipOffset, rptOffset, cold.satp % 2 ^ 32,
        cold.entrypoint % 2 ^ 32, cold.sp % 2 ^ 32, if cfg.debug then 1 else 0]
      ⟨.started entry,
       [.parseKernelArgs, .checkResumeMarker, .clearRam, .phase1, .phase2,
        .writeBackupArgs, .startKernel],
       backup', marker'⟩
    else
      let b := fun i => backup.getD i 0
      let entry : KernelEntry :=
        ⟨b 0, b 1, b 2, resume_satp (b 3) pid, b 4, b 5, b 6 != 0, true⟩
      ⟨.started entry,
       [.parseKernelArgs, .checkResumeMarker, .startKernel],
       backup, marker'⟩

/-- Translation of `rust_entry` (loader/src/main.rs) with the `secboot`
feature enabled.  `validateOk` is the result of
`secboot::validate_xous_img(signed_buffer)` (loader/src/secboot.rs is not
among the provided sources; the claims quantify over its result).  On a
validation failure the loader enters `loop {}` immediately: no argument is
parsed, no RAM is touched, no page table is built, and the run performs no
action at all. -/
def rust_entry (validateOk : Bool) (pdSize : Nat) (tags : List KernelArgument)
    (marker : List Nat) (seed0 seed1 : Nat) (backup : List Nat)
    (cold : ColdBootInfo) : LoaderResult :=
  if !validateOk then ⟨.hang, [], backup, marker⟩
  else boot_sequence pdSize tags marker seed0 seed1 backup cold

/-! ## The RISC-V trap dispatcher (kernel/src/arch/riscv/irq.rs) -/

/-- Modelled from the spec: the sentinel program-counter value
`RETURN_FROM_EXCEPTION_HANDLER` of kernel/src/arch/riscv/process.rs (not
among the provided sources).  Only its distinctness from the other two
sentinels matters to the claims. -/
def RETURN_FROM_EXCEPTION_HANDLER : Nat := 0xFF804000

/-- Modelled from the spec: the sentinel program-counter value `EXIT_THREAD`
of kernel/src/arch/riscv/process.rs (not among the provided sources). -/
def EXIT_THREAD : Nat := 0xFF803000

/-- Modelled from the spec: the sentinel program-counter value
`RETURN_FROM_ISR` of kernel/src/arch/riscv/process.rs (not among the
provided sources). -/
def RETURN_FROM_ISR : Nat := 0xFF802000

/-- Saved register state of the currently running thread: the saved program
counter and the remaining saved general-purpose registers (never touched by
the dispatcher itself except through the explicit updates modelled below). -/
structure Thread where
  sepc : Nat
  regs : List Nat
  deriving DecidableEq, Repr

/-- Kernel state visible to one `trap_handler` invocation: the current
process id, current thread id, the current thread's saved state, and the
`PREVIOUS_PAIR` static. -/
structure Machine where
  pid : Nat
  tid : Nat
  thread : Thread
  previousPair : Option (Nat × Nat)
  deriving DecidableEq, Repr

/-- CSR and argument-register values read at trap entry: the eight syscall
argument registers a0-a7, `scause`, `sepc`, `stval`, and whether `sstatus.SPP`
says the trap came from supervisor mode. -/
structure TrapInput where
  a0 : Nat
  a1 : Nat
  a2 : Nat
  a3 : Nat
  a4 : Nat
  a5 : Nat
  a6 : Nat
  a7 : Nat
  scause : Nat
  sepc : Nat
  stval : Nat
  sppSupervisor : Bool

/-- Result of `crate::syscall::handle` after the
`unwrap_or_else(xous_kernel::Result::Error)` fold, as compared against
`xous_kernel::Result::ResumeProcess` by the dispatcher.  Payloads other than
the two distinguished values are abstracted to a code. -/
inductive KResult where
  | resumeProcess
  | errorUnhandledSyscall
  | errorOther (code : Nat)
  | value (v : Nat)
  deriving DecidableEq, Repr

/-- Classification of the trap cause produced by `RiscvException::from_regs`
(kernel/src/arch/riscv/exception.rs is not among the provided sources;
modelled from the spec using the standard RISC-V scause exception codes).
Each variant carries `(sepc, stval)` as in the source. -/
inductive RvEx where
  | instructionAddressMisaligned (epc addr : Nat)
  | instructionAccessFault (epc addr : Nat)
  | illegalInstruction (epc instr : Nat)
  | breakpoint (epc : Nat)
  | loadAddressMisaligned (epc addr : Nat)
  | loadAccessFault (epc addr : Nat)
  | storeAddressMisaligned (epc addr : Nat)
  | storeAccessFault (epc addr : Nat)
  | callFromUMode (epc : Nat)
  | callFromSMode (epc : Nat)
  | instructionPageFault (epc addr : Nat)
  | loadPageFault (epc addr : Nat)
  | storePageFault (epc addr : Nat)
  | unknownCause (cause epc tval : Nat)
  deriving DecidableEq, Repr

/-- Modelled from the spec: `RiscvException::from_regs(cause, epc, tval)`
using the standard RISC-V exception cause codes. -/
def RvEx.fromRegs (cause epc tval : Nat) : RvEx :=
  if cause == 0 then .instructionAddressMisaligned epc tval
  else if cause == 1 then .instructionAccessFault epc tval
  else if cause == 2 then .illegalInstruction epc tval
  else if cause == 3 then .breakpoint epc
  else if cause == 4 then .loadAddressMisaligned epc tval
  else if cause == 5 then .loadAccessFault epc tval
  else if cause == 6 then .storeAddressMisaligned epc tval
  else if cause == 7 then .storeAccessFault epc tval
  else if cause == 8 then .callFromUMode epc
  else if cause == 9 then .callFromSMode epc
  else if cause == 12 then .instructionPageFault epc tval
  else if cause == 13 then .loadPageFault epc tval
  else if cause == 15 then .storePageFault epc tval
  else .unknownCause cause epc tval

/-- Translation of `generate_exception_args` (kernel/src/arch/riscv/irq.rs):
the ten expressible exception kinds become a `[kind, pc, addr]` triple, all
others `None`.  The numeric codes stand for `xous_kernel::ExceptionType`
(that crate is not among the provided sources; only which variants map to
`Some` matters to the claims). -/
def generate_exception_args : RvEx → Option (Nat × Nat × Nat)
  | .instructionAddressMisaligned epc addr => some (1, epc, addr)
  | .instructionAccessFault epc addr => some (2, epc, addr)
  | .illegalInstruction epc instr => some (3, epc, instr)
  | .loadAddressMisaligned epc addr => some (4, epc, addr)
  | .loadAccessFault epc addr => some (5, epc, addr)
  | .storeAddressMisaligned epc addr => some (6, epc, addr)
  | .storeAccessFault epc addr => some (7, epc, addr)
  | .instructionPageFault epc addr => some (8, epc, addr)
  | .loadPageFault epc addr => some (9, epc, addr)
  | .storePageFault epc addr => some (10, epc, addr)
  | _ => none

/-- Behaviour of the external collaborators during one trap: the
`SysCall::from_args` decoder and `crate::syscall::handle` of the xous-kernel
crate, `ensure_page_exists_inner`, `SystemServices` operations, and the
current thread each collaborator leaves behind.  Decoded syscalls and the
collaborator-chosen threads are abstracted. -/
structure TrapOracle where
  fromArgs : Nat → Nat → Nat → Nat → Nat → Nat → Nat → Nat → Option Nat
  handle : Nat → Nat → Bool → Nat → Thread → KResult × Thread
  ensurePage : Nat → Bool
  handlerEntry : Option (Nat × Nat)
  finishExceptionOk : Bool
  threadAfterFinishException : Thread
  destroyResult : Option Bool
  threadAfterDestroy : Thread
  finishCallbackOk : Bool
  threadAfterIsr : Thread
  exceptionThread : Thread
  irqPending : Nat
  irqHandleOk : Bool
  threadAfterIrq : Thread
  terminateOk : Bool
  threadAfterTerminate : Thread

/-- Irreversible exits of `trap_handler`: every code path of the source ends
in a resume/return primitive, a panic, or the deliberate infinite loop. -/
inductive TrapOutcome where
  | kernelStackPanic                                -- "Maybe ran out of kernel stack?"
  | returnResult (res : KResult) (t : Thread)       -- _xous_syscall_return_result
  | resumeThread (t : Thread)                       -- arch::syscall::resume
  | threadExitResume (reset : Bool) (t : Thread)    -- EXIT_THREAD path resume
  | isrResume (pair : Nat × Nat) (t : Thread)       -- RETURN_FROM_ISR path resume
  | invokeHandler (pc sp ret : Nat) (args : Nat × Nat × Nat) (t : Thread)
  | panicFinishException                            -- "unable to finish exception handler"
  | panicDestroyThread                              -- destroy_thread unwrap failure
  | panicIsrNoPair                                  -- "got RETURN_FROM_ISR with no previous PID"
  | panicFinishCallback                             -- "unable to resume previous PID"
  | panicIrqHandle                                  -- "Couldn't handle IRQ" expect failure
  | panicTerminate                                  -- "couldn't terminate current process"
  | haltSystem                                      -- kernel failure: loop {}
  | terminateAndResume (pid : Nat) (reset : Bool) (t : Thread)
  deriving DecidableEq, Repr

/-- Events recorded along the syscall path, in program order. -/
inductive TrapEvent where
  | sepcAdvanced (newSepc : Nat)
  | syscallDecoded (ok : Bool)
  | syscallDispatched (call : Nat) (threadSepc : Nat)
  deriving DecidableEq, Repr

/-- Fatal tail of the generic exception path: print diagnostics, then halt
the whole system on a supervisor-mode fault, or terminate only the faulting
process, reset the switch-to-caller bookkeeping and resume the thread that is
current afterwards on a user-mode fault. -/
def fatalException (m : Machine) (o : TrapOracle) (inp : TrapInput) :
    TrapOutcome × Machine × List TrapEvent :=
  if inp.sppSupervisor then (.haltSystem, m, [])
  else if o.terminateOk then
    (.terminateAndResume m.pid true o.threadAfterTerminate,
     { m with thread := o.threadAfterTerminate }, [])
  else (.panicTerminate, m, [])

/-- Generic (unrecognized) exception handling: if the exception is
expressible and the process has a registered exception handler, invoke it at
its registered entry with the sentinel return address; otherwise fall into
the fatal tail. -/
def genericException (m : Machine) (o : TrapOracle) (inp : TrapInput)
    (ex : RvEx) : TrapOutcome × Machine × List TrapEvent :=
  match generate_exception_args ex with
  | some args =>
    match o.handlerEntry with
    | some (hpc, hsp) =>
      (.invokeHandler hpc hsp RETURN_FROM_EXCEPTION_HANDLER args o.exceptionThread, m, [])
    | none => fatalException m o inp
  | none => fatalException m o inp

/-- Exception arm of `trap_handler`: the recognized special exceptions
(demand-paged load/store faults, and instruction "page faults" at the three
sentinel addresses), falling through to `genericException` otherwise. -/
def handleException (m : Machine) (o : TrapOracle) (inp : TrapInput)
    (ex : RvEx) : TrapOutcome × Machine × List TrapEvent :=
  match ex with
  | .storePageFault _pc addr =>
    if o.ensurePage addr then (.resumeThread m.thread, m, [])
    else genericException m o inp ex
  | .loadPageFault _pc addr =>
    if o.ensurePage addr then (.resumeThread m.thread, m, [])
    else genericException m o inp ex
  | .instructionPageFault epc _off =>
    if epc == RETURN_FROM_EXCEPTION_HANDLER then
      if o.finishExceptionOk then
        -- adjust the saved PC by the signed delta in a0; both sign branches
        -- of the source collapse to a 32-bit wrapping add of the two's
        -- complement word
        let t := { o.threadAfterFinishException with
          sepc := wadd o.threadAfterFinishException.sepc inp.a0 }
        (.resumeThread t, { m with thread := t }, [])
      else (.panicFinishException, m, [])
    else if epc == EXIT_THREAD then
      match o.destroyResult with
      | none => (.panicDestroyThread, m, [])
      | some needsReset =>
        (.threadExitResume needsReset o.threadAfterDestroy,
         { m with thread := o.threadAfterDestroy }, [])
    else if epc == RETURN_FROM_ISR then
      match m.previousPair with
      | none => (.panicIsrNoPair, m, [])
      | some pair =>
        let m' := { m with previousPair := none }
        if o.finishCallbackOk then
          (.isrResume pair o.threadAfterIsr, { m' with thread := o.threadAfterIsr }, [])
        else (.panicFinishCallback, m', [])
    else genericException m o inp ex
  | _ => genericException m o inp ex

/-- Translation of `trap_handler` (kernel/src/arch/riscv/irq.rs).  Program
order of the source: the supervisor-stack-blowout check, then the ecall
(syscall) branch for scause 8/9 where the saved PC is advanced by 4 before
the arguments are decoded and before the call is dispatched, then the
exception arm, and finally the hardware-interrupt arm which records the
currently running (pid, tid) into `PREVIOUS_PAIR` only when none is
recorded. -/
def trap_handler (m : Machine) (o : TrapOracle) (inp : TrapInput) :
    TrapOutcome × Machine × List TrapEvent :=
  let sc := inp.scause
  if inp.sppSupervisor && sc == 0xf then (.kernelStackPanic, m, [])
  else if sc == 9 || sc == 8 then
    let t := { m.thread with sepc := wadd m.thread.sepc 4 }
    let m' := { m with thread := t }
    match o.fromArgs inp.a0 inp.a1 inp.a2 inp.a3 inp.a4 inp.a5 inp.a6 inp.a7 with
    | none =>
      (.returnResult .errorUnhandledSyscall t, m',
       [.sepcAdvanced t.sepc, .syscallDecoded false])
    | some call =>
      let hr := o.handle m'.pid m'.tid m'.previousPair.isSome call t
      let events := [.sepcAdvanced t.sepc, .syscallDecoded true,
                     .syscallDispatched call t.sepc]
      if hr.1 = KResult.resumeProcess then
        (.resumeThread hr.2, { m' with thread := hr.2 }, events)
      else
        (.returnResult hr.1 hr.2, { m' with thread := hr.2 }, events)
  else if sc < 2 ^ 31 then
    handleException m o inp (RvEx.fromRegs sc inp.sepc inp.stval)
  else
    let m' := if m.previousPair.isNone
      then { m with previousPair := some (m.pid, m.tid) } else m
    if o.irqHandleOk then
      (.resumeThread o.threadAfterIrq, { m' with thread := o.threadAfterIrq }, [])
    else (.panicIrqHandle, m', [])

/-! ## The cramium TRNG driver (libs/cramium-hal/src/sce/trng.rs) -/

/-- Bits of `EntropySource` (trng.rs): LOW_FREQ_EN | HIGH_FREQ_EN |
LOW_FREQ_SRC_MASK | HIGH_FREQ_SRC_MASK. -/
def entropySourceAllBits : Nat := 0b1 ||| 0b10 ||| 0b11100 ||| 0b111111100000

/-- Bits of `Analog` (trng.rs): ENABLE_MASK | VALID_MASK. -/
def analogAllBits : Nat := 0b1111111100000000 ||| 0b11111111

/-- Bits of `Options` (trng.rs). -/
def GENERATION_COUNT_POS : Nat := 0x0

/-- Generation-count field mask of `Options` (trng.rs). -/
def GENERATION_COUNT_MASK : Nat := 0x0FFFF

/-- Segment-B select bit of `Options` (trng.rs). -/
def SEGMENT_B_SELECT : Nat := 0x10000

/-- GEN_EN bit of `Config` (trng.rs). -/
def GEN_EN : Nat := 0b1

/-- GEN_INTERVAL_4 bits of `Config` (trng.rs). -/
def GEN_INTERVAL_4 : Nat := 0b10000000000000

/-- RESEED_INTERVAL_1 bits of `Config` (trng.rs). -/
def RESEED_INTERVAL_1 : Nat := 0b100000000000000

/-- HEALTHTEST_LEN_POS of `Config` (trng.rs). -/
def HEALTHTEST_LEN_POS : Nat := 6

/-- HEALTHTEST_LEN_MASK of `Config` (trng.rs). -/
def HEALTHTEST_LEN_MASK : Nat := 0b111111000000

/-- Modelled register identifiers of the TRNG block (names from utralib,
which is not among the provided sources; only their distinctness matters). -/
inductive TrngReg where
  | SFR_CRSRC
  | SFR_CRANA
  | SFR_OPT
  | SFR_PP
  deriving DecidableEq, Repr

/-- Observable peripheral accesses of the TRNG driver.  `waitAndReadBuf`
stands for the busy-wait on the BUFREADY bit of SFR_SR followed by the read
of SFR_BUF that yields one random word. -/
inductive TrngEffect where
  | csrWrite (reg : TrngReg) (val : Nat)
  | waitAndReadBuf
  deriving DecidableEq, Repr

/-- Generation mode of the TRNG controller (enum `Mode` of trng.rs). -/
inductive TrngMode where
  | Uninit
  | Raw
  | Lfsr
  | Aes
  deriving DecidableEq, Repr

/-- State of the `Trng` controller: CSR base address, remaining-sample count
(a u16) and mode. -/
structure Trng where
  csrBase : Nat
  count : Nat
  mode : TrngMode
  deriving DecidableEq, Repr

/-- Unimplemented-mode panics of `get_u32` (`todo!()` in the source). -/
inductive TrngTodo where
  | lfsrMode
  | aesMode
  deriving DecidableEq, Repr

/-- Translation of `Trng::new`: uninitialized mode, zero remaining count. -/
def Trng.new (baseAddr : Nat) : Trng :=
  { csrBase := baseAddr, count := 0, mode := .Uninit }

/-- Translation of `Trng::setup_raw_generation`: record the count, enter raw
mode, and program SFR_CRSRC, SFR_CRANA, SFR_OPT and SFR_PP exactly as the
source computes them.  Returns the new state and the register writes
performed, in order. -/
def Trng.setup_raw_generation (t : Trng) (count : Nat) : Trng × List TrngEffect :=
  let cnt := count % 2 ^ 16
  let t' := { t with count := cnt, mode := TrngMode.Raw }
  let optVal := ((cnt <<< GENERATION_COUNT_POS) &&& GENERATION_COUNT_MASK) ||| SEGMENT_B_SELECT
  let healthestLen :=
    if (HEALTHTEST_LEN_MASK >>> HEALTHTEST_LEN_POS) < cnt
    then HEALTHTEST_LEN_MASK >>> HEALTHTEST_LEN_POS
    else cnt
  let ppVal := (GEN_EN ||| GEN_INTERVAL_4 ||| RESEED_INTERVAL_1) |||
    ((healthestLen <<< HEALTHTEST_LEN_POS) &&& HEALTHTEST_LEN_MASK)
  (t', [.csrWrite .SFR_CRSRC entropySourceAllBits,
        .csrWrite .SFR_CRANA analogAllBits,
        .csrWrite .SFR_OPT optVal,
        .csrWrite .SFR_PP ppVal])

/-- Translation of `Trng::get_u32`.  `bufWord` is the word the hardware
delivers in SFR_BUF once BUFREADY is set.  In `Uninit` mode the call returns
`None` immediately, touching neither the peripheral nor the state.  In `Raw`
mode with samples remaining it decrements the count and reads one word; with
the count exhausted it transparently re-runs `setup_raw_generation(256)`
first.  The unimplemented `Lfsr`/`Aes` modes are `todo!()` panics. -/
def Trng.get_u32 (t : Trng) (bufWord : Nat) :
    Except TrngTodo (Option Nat × Trng × List TrngEffect) :=
  match t.mode with
  | .Uninit => .ok (none, t, [])
  | .Raw =>
    if 0 < t.count then
      .ok (some bufWord, { t with count := t.count - 1 }, [.waitAndReadBuf])
    else
      let s := t.setup_raw_generation 256
      .ok (some bufWord, { s.1 with count := s.1.count - 1 }, s.2 ++ [.waitAndReadBuf])
  | .Lfsr => .error .lfsrMode
  | .Aes => .error .aesMode

/-- Translation of `Trng::get_count_remaining`: the controller's own
remaining-sample counter (not the hardware status field). -/
def Trng.get_count_remaining (t : Trng) : Nat := t.count

/-! ## Concrete instances used by the witnesses -/

/-- First 127 words of marker sector 0 for a synthetic clean marker: word 0
clear (no forced suspend), words 1 and 2 equal to the hardware seed words,
word 3 the suspend/resume manager pid, the rest zero. -/
def sector0Words (seed0 seed1 pid : Nat) : List Nat :=
  0 :: seed0 :: seed1 :: pid :: List.replicate 123 0

/-- Marker checksum of an all-zero 127-word sector. -/
def zeroSectorChecksum : Nat := murmur3_32 (List.replicate 127 0) 0

/-- Synthetic suspend-marker page whose eight sector checksums all validate
against the given hardware seeds: sector 0 stores the seeds themselves (so
the patch rewrites them with identical values) and the pid; sectors 1-7 are
all zero. -/
def mkCleanMarker (seed0 seed1 pid : Nat) : List Nat :=
  (sector0Words seed0 seed1 pid ++ [murmur3_32 (sector0Words seed0 seed1 pid) 0]) ++
    (List.replicate 7 (List.replicate 127 0 ++ [zeroSectorChecksum])).flatten

/-- Well-formed kernel-argument stream used by concrete witnesses: an XArg
header carrying SRAM base 0x40000000 and size 0x1000000, one kernel
descriptor of the expected size 52, and one IniE initial-process tag. -/
def witnessTags : List KernelArgument :=
  [⟨xargTag, 20, [1, 1, 0x40000000, 0x1000000, 0]⟩,
   ⟨xkrnTag, 52, [0, 0, 0]⟩,
   ⟨inieTag, 8, [0, 0]⟩]

/-- Phase-1/phase-2 collaborator results used by concrete witnesses. -/
def witnessCold : ColdBootInfo :=
  ⟨0x10000, 0x40FF0000, 0x40FF1000, 0x40FF2000, 0x80400000, 0x02000000, 0xFFFE000⟩

/-- Backup-argument region contents used by the resume-path instances. -/
def c2Backup : List Nat := [0x11, 0x22, 0x33, 0x0, 0x44, 0x55, 0]

/-- Concrete trap oracle used by closed instances: the decoder rejects every
argument tuple, every collaborator succeeds. -/
def c8Oracle : TrapOracle :=
  { fromArgs := fun _ _ _ _ _ _ _ _ => none,
    handle := fun _ _ _ _ t => (.value 0, t),
    ensurePage := fun _ => false,
    handlerEntry := none,
    finishExceptionOk := true,
    threadAfterFinishException := ⟨0, []⟩,
    destroyResult := some false,
    threadAfterDestroy := ⟨0, []⟩,
    finishCallbackOk := true,
    threadAfterIsr := ⟨0x9000, [1]⟩,
    exceptionThread := ⟨0, []⟩,
    irqPending := 0,
    irqHandleOk := true,
    threadAfterIrq := ⟨0x9100, [2]⟩,
    terminateOk := true,
    threadAfterTerminate := ⟨0x9200, [3]⟩ }

/-- Concrete trap input used by closed instances: an ecall from user mode
(scause 8). -/
def c8Input : TrapInput :=
  { a0 := 1, a1 := 2, a2 := 3, a3 := 4, a4 := 5, a5 := 6, a6 := 7, a7 := 8,
    scause := 8, sepc := 0x1000, stval := 0, sppSupervisor := false }

/-! ## Claim theorems -/

/-- C1: for every boot in which secure-boot image validation of the signed
buffer fails, the loader never proceeds: `rust_entry` enters an infinite loop
(`LoaderOutcome.hang`) having performed no action at all — in particular the
kernel-argument buffer is never parsed, no RAM is cleared and no page table
is constructed — and the backup region and suspend marker are untouched. -/
theorem c1_failed_validation_halts_loader :
    ∀ (pdSize : Nat) (tags : List KernelArgument) (marker : List Nat)
      (seed0 seed1 : Nat) (backup : List Nat) (cold : ColdBootInfo),
      rust_entry false pdSize tags marker seed0 seed1 backup cold =
        ⟨.hang, [], backup, marker⟩ ∧
      LoaderAction.parseKernelArgs ∉
        (rust_entry false pdSize tags marker seed0 seed1 backup cold).trace ∧
      LoaderAction.clearRam ∉
        (rust_entry false pdSize tags marker seed0 seed1 backup cold).trace ∧
      LoaderAction.phase1 ∉
        (rust_entry false pdSize tags marker seed0 seed1 backup cold).trace := by
  intro pdSize tags marker seed0 seed1 backup cold
  refine ⟨rfl, ?_, ?_, ?_⟩ <;> simp [rust_entry]

/-- C7: for every trap whose cause is an ecall instruction (scause 8 or 9),
`trap_handler` adds 4 (32-bit wrapping) to the current thread's saved program
counter before decoding the syscall arguments and before dispatching to the
syscall handler: the recorded event trace opens with the advance, and the
dispatch event (when decoding succeeds) carries the post-advance address. -/
theorem c7_ecall_advances_sepc_before_dispatch :
    ∀ (m : Machine) (o : TrapOracle) (inp : TrapInput),
      inp.scause = 8 ∨ inp.scause = 9 →
      (trap_handler m o inp).2.2 =
          [.sepcAdvanced (wadd m.thread.sepc 4), .syscallDecoded false] ∨
      ∃ call, (trap_handler m o inp).2.2 =
          [.sepcAdvanced (wadd m.thread.sepc 4), .syscallDecoded true,
           .syscallDispatched call (wadd m.thread.sepc 4)] := by
  intro m o inp h
  have h15 : (inp.scause == 0xf) = false := by
    rcases h with h | h <;> simp [h]
  have h89 : (inp.scause == 9 || inp.scause == 8) = true := by
    rcases h with h | h <;> simp [h]
  cases hd : o.fromArgs inp.a0 inp.a1 inp.a2 inp.a3 inp.a4 inp.a5 inp.a6 inp.a7 with
  | none =>
    left
    simp [trap_handler, h15, h89, hd]
  | some call =>
    right
    refine ⟨call, ?_⟩
    simp only [trap_handler, h15, Bool.and_false, Bool.false_eq_true, if_false, h89,
      if_true, hd]
    split <;> rfl

/-- C8: for every 8-register argument tuple on which syscall decoding
(`SysCall::from_args`) fails, the dispatcher immediately returns the
synthetic result `Error(UnhandledSyscall)` to the current thread, and the
thread's saved state is otherwise untouched: only the saved PC changes (by
the uniform pre-dispatch advance of 4), the other saved registers, the pid,
the tid and the previous-interrupt pair are unchanged, and the outcome is a
result return, never a process termination. -/
theorem c8_invalid_syscall_returns_error :
    ∀ (m : Machine) (o : TrapOracle) (inp : TrapInput),
      inp.scause = 8 ∨ inp.scause = 9 →
      o.fromArgs inp.a0 inp.a1 inp.a2 inp.a3 inp.a4 inp.a5 inp.a6 inp.a7 = none →
      trap_handler m o inp =
        (.returnResult .errorUnhandledSyscall
           { m.thread with sepc := wadd m.thread.sepc 4 },
         { m with thread := { m.thread with sepc := wadd m.thread.sepc 4 } },
         [.sepcAdvanced (wadd m.thread.sepc 4), .syscallDecoded false]) := by
  intro m o inp h hd
  have h15 : (inp.scause == 0xf) = false := by
    rcases h with h | h <;> simp [h]
  have h89 : (inp.scause == 9 || inp.scause == 8) = true := by
    rcases h with h | h <;> simp [h]
  simp only [trap_handler, h15, Bool.and_false, Bool.false_eq_true, if_false, h89, if_true, hd]

/-- Closed instance of C7 at a concrete machine and trap input. -/
theorem c7_ecall_advances_sepc_before_dispatch_witness :
    ((8 : Nat) = 8 ∨ (8 : Nat) = 9) ∧
    ((trap_handler ⟨2, 1, ⟨0x1000, [7, 7]⟩, none⟩ c8Oracle c8Input).2.2 =
        [.sepcAdvanced (wadd 0x1000 4), .syscallDecoded false] ∨
     ∃ call, (trap_handler ⟨2, 1, ⟨0x1000, [7, 7]⟩, none⟩ c8Oracle c8Input).2.2 =
        [.sepcAdvanced (wadd 0x1000 4), .syscallDecoded true,
         .syscallDispatched call (wadd 0x1000 4)]) :=
  ⟨Or.inl rfl,
   c7_ecall_advances_sepc_before_dispatch ⟨2, 1, ⟨0x1000, [7, 7]⟩, none⟩
     c8Oracle c8Input (Or.inl rfl)⟩

/-- Closed instance of C8: a concrete invalid syscall produces exactly the
synthetic error return with only the saved PC advanced. -/
theorem c8_invalid_syscall_returns_error_witness :
    trap_handler ⟨2, 1, ⟨0x1000, [7, 7]⟩, none⟩ c8Oracle c8Input =
      (.returnResult .errorUnhandledSyscall ⟨wadd 0x1000 4, [7, 7]⟩,
       ⟨2, 1, ⟨wadd 0x1000 4, [7, 7]⟩, none⟩,
       [.sepcAdvanced (wadd 0x1000 4), .syscallDecoded false]) :=
  c8_invalid_syscall_returns_error ⟨2, 1, ⟨0x1000, [7, 7]⟩, none⟩
    c8Oracle c8Input (Or.inl rfl) rfl

/-- C9: in raw-generation mode `get_u32` never returns `None` and never
errors; with a positive remaining count it returns a word and the
remaining-sample counter decreases by exactly one; with the count exhausted
it transparently re-runs `setup_raw_generation` with the fixed refill count
256 (performing that setup's register writes) and still returns a word, the
state being exactly the refreshed one with 255 samples left. -/
theorem c9_raw_generation_never_fails :
    ∀ (t : Trng) (w : Nat), t.mode = TrngMode.Raw →
      (∃ t' effs, t.get_u32 w = .ok (some w, t', effs)) ∧
      (0 < t.count →
        t.get_u32 w = .ok (some w, { t with count := t.count - 1 }, [.waitAndReadBuf]) ∧
        Trng.get_count_remaining { t with count := t.count - 1 } + 1 =
          t.get_count_remaining) ∧
      (t.count = 0 →
        t.get_u32 w = .ok (some w,
          { (t.setup_raw_generation 256).1 with count := 255 },
          (t.setup_raw_generation 256).2 ++ [.waitAndReadBuf])) := by
  intro t w hm
  refine ⟨?_, ?_, ?_⟩
  · by_cases hc : 0 < t.count
    · exact ⟨{ t with count := t.count - 1 }, [.waitAndReadBuf],
        by simp [Trng.get_u32, hm, hc]⟩
    · exact ⟨{ (t.setup_raw_generation 256).1 with
          count := (t.setup_raw_generation 256).1.count - 1 },
        (t.setup_raw_generation 256).2 ++ [.waitAndReadBuf],
        by simp [Trng.get_u32, hm, hc]⟩
  · intro hc
    constructor
    · simp [Trng.get_u32, hm, hc]
    · simp [Trng.get_count_remaining, Nat.sub_add_cancel hc]
  · intro hc
    simp [Trng.get_u32, hm, hc, Trng.setup_raw_generation]

/-- Closed instance of C9 at both a positive and an exhausted count. -/
theorem c9_raw_generation_never_fails_witness :
    (⟨0x40048000, 10, .Raw⟩ : Trng).get_u32 0xABCD =
      .ok (some 0xABCD, ⟨0x40048000, 9, .Raw⟩, [.waitAndReadBuf]) ∧
    (⟨0x40048000, 0, .Raw⟩ : Trng).get_u32 0x1234 =
      .ok (some 0x1234,
        { ((⟨0x40048000, 0, .Raw⟩ : Trng).setup_raw_generation 256).1 with count := 255 },
        ((⟨0x40048000, 0, .Raw⟩ : Trng).setup_raw_generation 256).2 ++ [.waitAndReadBuf]) :=
  ⟨((c9_raw_generation_never_fails ⟨0x40048000, 10, .Raw⟩ 0xABCD rfl).2.1 (by decide)).1,
   (c9_raw_generation_never_fails ⟨0x40048000, 0, .Raw⟩ 0x1234 rfl).2.2 rfl⟩

/-- C10: calling `get_u32` while the controller is still in the uninitialized
mode returns `None` without performing any peripheral access and without
changing the controller's mode or remaining-sample count. -/
theorem c10_uninit_get_u32_is_inert :
    ∀ (t : Trng) (w : Nat), t.mode = TrngMode.Uninit →
      t.get_u32 w = .ok (none, t, []) := by
  intro t w hm
  simp [Trng.get_u32, hm]

/-- Closed instance of C10 on a freshly constructed controller. -/
theorem c10_uninit_get_u32_is_inert_witness :
    (Trng.new 0x40048000).mode = TrngMode.Uninit ∧
    (Trng.new 0x40048000).get_u32 99 = .ok (none, Trng.new 0x40048000, []) :=
  ⟨rfl, c10_uninit_get_u32_is_inert (Trng.new 0x40048000) 99 rfl⟩

/-- Exceptions given special (non-generic) treatment by the dispatcher's
match: demand-paged load/store faults, and instruction page faults at one of
the three sentinel addresses. -/
def exSpecial : RvEx → Bool
  | .storePageFault _ _ => true
  | .loadPageFault _ _ => true
  | .instructionPageFault epc _ =>
    epc == RETURN_FROM_EXCEPTION_HANDLER || epc == EXIT_THREAD || epc == RETURN_FROM_ISR
  | _ => false

/-- Classification of a trap as an unrecognized CPU exception: an exception
(interrupt bit clear) that is not an ecall (8/9), not a demand-paged
load/store fault (13/15), and not an instruction page fault (12) at one of
the three sentinel addresses. -/
def isUnrecognizedException (sc epc : Nat) : Bool :=
  decide (sc < 2 ^ 31) && !(sc == 8) && !(sc == 9) && !(sc == 13) && !(sc == 15) &&
  !(sc == 12 && (epc == RETURN_FROM_EXCEPTION_HANDLER || epc == EXIT_THREAD ||
                 epc == RETURN_FROM_ISR))

/-- Reduction of `trap_handler` to its exception arm when the cause is an
exception other than an ecall and other than the supervisor-stack check. -/
theorem trap_handler_exception_arm (m : Machine) (o : TrapOracle) (inp : TrapInput)
    (h8 : inp.scause ≠ 8) (h9 : inp.scause ≠ 9) (h15 : inp.scause ≠ 15)
    (hlt : inp.scause < 2 ^ 31) :
    trap_handler m o inp =
      handleException m o inp (RvEx.fromRegs inp.scause inp.sepc inp.stval) := by
  have hb15 : (inp.scause == 0xf) = false := beq_eq_false_iff_ne.mpr h15
  have hb9 : (inp.scause == 9) = false := beq_eq_false_iff_ne.mpr h9
  have hb8 : (inp.scause == 8) = false := beq_eq_false_iff_ne.mpr h8
  unfold trap_handler
  simp only [hb15, hb9, hb8, Bool.and_false, Bool.or_self, Bool.false_eq_true,
    if_false, if_pos hlt]

/-- Reduction of `trap_handler` to its hardware-interrupt arm when the
interrupt bit of scause is set. -/
theorem trap_handler_interrupt_arm (m : Machine) (o : TrapOracle) (inp : TrapInput)
    (hint : 2 ^ 31 ≤ inp.scause) :
    trap_handler m o inp =
      (let m' := if m.previousPair.isNone
         then { m with previousPair := some (m.pid, m.tid) } else m
       if o.irqHandleOk then
         (.resumeThread o.threadAfterIrq, { m' with thread := o.threadAfterIrq }, [])
       else (.panicIrqHandle, m', [])) := by
  have hb15 : (inp.scause == 0xf) = false := beq_eq_false_iff_ne.mpr (by omega)
  have hb9 : (inp.scause == 9) = false := beq_eq_false_iff_ne.mpr (by omega)
  have hb8 : (inp.scause == 8) = false := beq_eq_false_iff_ne.mpr (by omega)
  unfold trap_handler
  simp only [hb15, hb9, hb8, Bool.and_false, Bool.or_self, Bool.false_eq_true,
    if_false, if_neg (by omega : ¬inp.scause < 2 ^ 31)]

/-- Exceptions that are not specially treated fall through to the generic
exception handler. -/
theorem handleException_not_special (m : Machine) (o : TrapOracle)
    (inp : TrapInput) (ex : RvEx) (h : exSpecial ex = false) :
    handleException m o inp ex = genericException m o inp ex := by
  cases ex with
  | storePageFault pc addr => simp [exSpecial] at h
  | loadPageFault pc addr => simp [exSpecial] at h
  | instructionPageFault epc off =>
    simp only [exSpecial, Bool.or_eq_false_iff] at h
    obtain ⟨⟨h1, h2⟩, h3⟩ := h
    simp only [handleException, h1, h2, h3, Bool.false_eq_true, if_false]
  | instructionAddressMisaligned epc addr => rfl
  | instructionAccessFault epc addr => rfl
  | illegalInstruction epc instr => rfl
  | breakpoint epc => rfl
  | loadAddressMisaligned epc addr => rfl
  | loadAccessFault epc addr => rfl
  | storeAddressMisaligned epc addr => rfl
  | storeAccessFault epc addr => rfl
  | callFromUMode epc => rfl
  | callFromSMode epc => rfl
  | unknownCause cause epc tval => rfl

/-- Unrecognized trap causes classify to non-special exceptions. -/
theorem fromRegs_not_special (sc epc tval : Nat)
    (h : isUnrecognizedException sc epc = true) :
    exSpecial (RvEx.fromRegs sc epc tval) = false := by
  simp only [isUnrecognizedException, Bool.and_eq_true, Bool.not_eq_true',
    decide_eq_true_eq] at h
  obtain ⟨⟨⟨⟨⟨_, h8⟩, h9⟩, h13⟩, h15⟩, h12⟩ := h
  by_cases hlt16 : sc < 16
  · interval_cases sc <;> simp_all [RvEx.fromRegs, exSpecial]
  · have b : ∀ k : Nat, sc ≠ k → (sc == k) = true → False :=
      fun k hne hb => hne (by simpa using hb)
    unfold RvEx.fromRegs
    rw [if_neg (b 0 (by omega)), if_neg (b 1 (by omega)), if_neg (b 2 (by omega)),
      if_neg (b 3 (by omega)), if_neg (b 4 (by omega)), if_neg (b 5 (by omega)),
      if_neg (b 6 (by omega)), if_neg (b 7 (by omega)), if_neg (b 8 (by omega)),
      if_neg (b 9 (by omega)), if_neg (b 12 (by omega)), if_neg (b 13 (by omega)),
      if_neg (b 15 (by omega))]
    rfl

/-- C3: for every trap classified as an unrecognized CPU exception that is
not taken by a registered userspace exception handler (either the exception
is not expressible as an argument triple, or no handler is registered), and
given that the terminate-process collaborator succeeds: a supervisor-mode
fault makes `trap_handler` halt the whole system permanently, while a
user-mode fault terminates only the faulting process, resets the
switch-to-caller bookkeeping and resumes the thread that is current
afterwards — it never halts the kernel. -/
theorem c3_unrecognized_exception_fatality :
    ∀ (m : Machine) (o : TrapOracle) (inp : TrapInput),
      isUnrecognizedException inp.scause inp.sepc = true →
      (generate_exception_args (RvEx.fromRegs inp.scause inp.sepc inp.stval) = none ∨
        o.handlerEntry = none) →
      o.terminateOk = true →
      ((inp.sppSupervisor = true → trap_handler m o inp = (.haltSystem, m, [])) ∧
       (inp.sppSupervisor = false →
          trap_handler m o inp =
            (.terminateAndResume m.pid true o.threadAfterTerminate,
             { m with thread := o.threadAfterTerminate }, []))) := by
  intro m o inp h hnh hterm
  have h' := h
  simp only [isUnrecognizedException, Bool.and_eq_true, Bool.not_eq_true',
    decide_eq_true_eq] at h'
  obtain ⟨⟨⟨⟨⟨hlt, h8⟩, h9⟩, _⟩, h15⟩, _⟩ := h'
  have hred : trap_handler m o inp =
      genericException m o inp (RvEx.fromRegs inp.scause inp.sepc inp.stval) := by
    rw [trap_handler_exception_arm m o inp (by simpa using h8) (by simpa using h9)
      (by simpa using h15) hlt]
    exact handleException_not_special m o inp _ (fromRegs_not_special _ _ _ h)
  have hfatal : trap_handler m o inp = fatalException m o inp := by
    rw [hred]
    rcases hnh with hga | hhe
    · simp [genericException, hga]
    · cases hga : generate_exception_args (RvEx.fromRegs inp.scause inp.sepc inp.stval) with
      | none => simp [genericException, hga]
      | some args => simp [genericException, hga, hhe]
  rw [hfatal]
  constructor
  · intro hs
    simp [fatalException, hs]
  · intro hs
    simp [fatalException, hs, hterm]

/-- Closed instance of C3: a concrete illegal instruction (scause 2) from
user mode with no registered handler terminates only the faulting process. -/
theorem c3_unrecognized_exception_fatality_witness :
    trap_handler ⟨5, 2, ⟨0x4000, [9]⟩, none⟩ c8Oracle
        { a0 := 0, a1 := 0, a2 := 0, a3 := 0, a4 := 0, a5 := 0, a6 := 0, a7 := 0,
          scause := 2, sepc := 0x4000, stval := 0xFFFF, sppSupervisor := false } =
      (.terminateAndResume 5 true (⟨0x9200, [3]⟩ : Thread),
       ⟨5, 2, ⟨0x9200, [3]⟩, none⟩, []) :=
  (c3_unrecognized_exception_fatality ⟨5, 2, ⟨0x4000, [9]⟩, none⟩ c8Oracle
    { a0 := 0, a1 := 0, a2 := 0, a3 := 0, a4 := 0, a5 := 0, a6 := 0, a7 := 0,
      scause := 2, sepc := 0x4000, stval := 0xFFFF, sppSupervisor := false }
    (by decide) (Or.inr rfl) rfl).2 rfl

/-- C6: at most one previous-interrupt pair is outstanding at any instant.
The hardware-interrupt arm records the currently running (pid, tid) into
`PREVIOUS_PAIR` only when none is recorded — a nested interrupt never
overwrites an existing pair.  Processing a `RETURN_FROM_ISR` marker takes
and clears the pair exactly once, and panics (fails loudly) when no pair is
recorded instead of returning stale data. -/
theorem c6_previous_pair_discipline :
    (∀ (m : Machine) (o : TrapOracle) (inp : TrapInput),
       2 ^ 31 ≤ inp.scause →
       ((m.previousPair = none →
           (trap_handler m o inp).2.1.previousPair = some (m.pid, m.tid)) ∧
        (∀ p, m.previousPair = some p →
           (trap_handler m o inp).2.1.previousPair = some p))) ∧
    (∀ (m : Machine) (o : TrapOracle) (inp : TrapInput),
       inp.scause = 12 → inp.sepc = RETURN_FROM_ISR →
       ((m.previousPair = none → (trap_handler m o inp).1 = .panicIsrNoPair) ∧
        (∀ p, m.previousPair = some p →
           (trap_handler m o inp).2.1.previousPair = none ∧
           (o.finishCallbackOk = true →
             (trap_handler m o inp).1 = .isrResume p o.threadAfterIsr)))) := by
  constructor
  · intro m o inp hint
    rw [trap_handler_interrupt_arm m o inp hint]
    constructor
    · intro hnone
      cases hio : o.irqHandleOk <;> simp [hnone, hio]
    · intro p hsome
      cases hio : o.irqHandleOk <;> simp [hsome, hio]
  · intro m o inp hsc hepc
    have hred : trap_handler m o inp =
        handleException m o inp (.instructionPageFault RETURN_FROM_ISR inp.stval) := by
      rw [trap_handler_exception_arm m o inp (by omega) (by omega) (by omega)
        (by rw [hsc]; norm_num)]
      rw [show RvEx.fromRegs inp.scause inp.sepc inp.stval =
        .instructionPageFault RETURN_FROM_ISR inp.stval by
          simp [RvEx.fromRegs, hsc, hepc]]
    rw [hred]
    have hno1 : (RETURN_FROM_ISR == RETURN_FROM_EXCEPTION_HANDLER) = false := by decide
    have hno2 : (RETURN_FROM_ISR == EXIT_THREAD) = false := by decide
    have hyes : (RETURN_FROM_ISR == RETURN_FROM_ISR) = true := by decide
    constructor
    · intro hnone
      simp only [handleException, hno1, Bool.false_eq_true, if_false, hno2, hyes,
        if_true, hnone]
    · intro p hsome
      constructor
      · cases hcb : o.finishCallbackOk <;>
          simp only [handleException, hno1, Bool.false_eq_true, if_false, hno2, hyes,
            if_true, hsome, hcb]
      · intro hcb
        simp only [handleException, hno1, Bool.false_eq_true, if_false, hno2, hyes,
          if_true, hsome, hcb]

/-- Closed instance of C6: a hardware interrupt with no recorded pair records
the current (pid, tid); an ISR-return marker with no recorded pair panics. -/
theorem c6_previous_pair_discipline_witness :
    (trap_handler ⟨3, 4, ⟨0x2000, []⟩, none⟩ c8Oracle
        { a0 := 0, a1 := 0, a2 := 0, a3 := 0, a4 := 0, a5 := 0, a6 := 0, a7 := 0,
          scause := 0x80000009, sepc := 0x2000, stval := 0,
          sppSupervisor := false }).2.1.previousPair = some (3, 4) ∧
    (trap_handler ⟨3, 4, ⟨0x2000, []⟩, none⟩ c8Oracle
        { a0 := 0, a1 := 0, a2 := 0, a3 := 0, a4 := 0, a5 := 0, a6 := 0, a7 := 0,
          scause := 12, sepc := RETURN_FROM_ISR, stval := 0,
          sppSupervisor := false }).1 = .panicIsrNoPair :=
  ⟨(c6_previous_pair_discipline.1 ⟨3, 4, ⟨0x2000, []⟩, none⟩ c8Oracle
      { a0 := 0, a1 := 0, a2 := 0, a3 := 0, a4 := 0, a5 := 0, a6 := 0, a7 := 0,
        scause := 0x80000009, sepc := 0x2000, stval := 0,
        sppSupervisor := false } (by norm_num)).1 rfl,
   (c6_previous_pair_discipline.2 ⟨3, 4, ⟨0x2000, []⟩, none⟩ c8Oracle
      { a0 := 0, a1 := 0, a2 := 0, a3 := 0, a4 := 0, a5 := 0, a6 := 0, a7 := 0,
        scause := 12, sepc := RETURN_FROM_ISR, stval := 0,
        sppSupervisor := false } rfl rfl).1 rfl⟩
/-- Sector 1 of a zeroed marker page never validates: its stored checksum is
0 while the recomputed murmur3-32 of 127 zero words is not (the patch touches
sector 0 only, so the hardware seeds are irrelevant here). -/
theorem zeroed_sector_one_mismatch (seed0 seed1 : Nat) :
    sectorMatches (List.replicate 1024 0) seed0 seed1 1 = false := by
  have h : patchedSector (List.replicate 1024 0) seed0 seed1 1 =
      List.replicate 127 0 := rfl
  rw [sectorMatches, h]
  decide

/-- C4: `check_resume` reports a clean suspend if and only if every one of
the 8 sectors of the marker page carries, in its last word, exactly the
murmur3-32 checksum (seed 0) of its first 127 words after the sector-0
seed-word patch; the whole 1024-word page is zeroed unconditionally before
the call returns; and a second consecutive check on the zeroed page can never
report a clean resume, whatever the hardware seeds read then. -/
theorem c4_check_resume_characterization :
    ∀ (marker : List Nat) (seed0 seed1 : Nat),
      ((check_resume marker seed0 seed1).1.1 = true ↔
        ∀ s, s < 8 →
          storedChecksum marker s =
            murmur3_32 (patchedSector marker seed0 seed1 s) 0) ∧
      (check_resume marker seed0 seed1).2 = List.replicate 1024 0 ∧
      (∀ s0 s1, (check_resume ((check_resume marker seed0 seed1).2) s0 s1).1.1 =
        false) := by
  intro marker seed0 seed1
  refine ⟨?_, rfl, ?_⟩
  · simp only [check_resume, List.all_eq_true, List.mem_range, sectorMatches,
      beq_iff_eq]
    constructor
    · intro h s hs
      exact (h s hs).symm
    · intro h s hs
      exact (h s hs).symm
  · intro s0 s1
    simp only [check_resume]
    rw [← Bool.not_eq_true, List.all_eq_true]
    intro h
    have h1 := h 1 (by simp)
    rw [zeroed_sector_one_mismatch s0 s1] at h1
    exact Bool.false_ne_true h1

/-- Closed instance of C4 on a concretely valid marker page: the check
reports clean, the characterization recovers a concrete sector equation, and
the page is zeroed. -/
theorem c4_check_resume_characterization_witness :
    storedChecksum (mkCleanMarker 5 6 3) 0 =
      murmur3_32 (patchedSector (mkCleanMarker 5 6 3) 5 6 0) 0 ∧
    (check_resume (mkCleanMarker 5 6 3) 5 6).2 = List.replicate 1024 0 ∧
    (check_resume ((check_resume (mkCleanMarker 5 6 3) 5 6).2) 7 8).1.1 = false :=
  ⟨((c4_check_resume_characterization (mkCleanMarker 5 6 3) 5 6).1.mp
      (by decide)) 0 (by decide),
   (c4_check_resume_characterization (mkCleanMarker 5 6 3) 5 6).2.1,
   (c4_check_resume_characterization (mkCleanMarker 5 6 3) 5 6).2.2 7 8⟩

/-- C2 counterexample: the claim's patch formula
`satp = (backup_satp & 0x803F_FFFF) | (pid << 22)` disagrees with the code on
a concrete clean resume.  With a validated marker whose recorded
suspend-manager pid word is 0x200 and a backup snapshot whose satp word is 0,
`boot_sequence` enters the kernel with satp 0 (the code masks the pid with
0x1FF before shifting), while the claim's formula demands 0x80000000. -/
theorem c2_resume_satp_counterexample :
    (boot_sequence 52 witnessTags (mkCleanMarker 5 6 0x200) 5 6 c2Backup
        witnessCold).outcome =
      .started ⟨0x11, 0x22, 0x33, 0, 0x44, 0x55, false, true⟩ ∧
    resume_satp_spec_formula 0 0x200 = 0x80000000 ∧
    (0 : Nat) ≠ 0x80000000 := by
  refine ⟨by decide, by decide, by decide⟩

/-- C2 (amended): on every clean resume, `boot_sequence` enters the kernel
with exactly the seven parameters read back from the backup snapshot, except
that the root translation pointer is patched per
`satp = (backup_satp & 0x803F_FFFF) | ((pid & 0x1FF) << 22)` — only the low
9 bits of the recovered suspend-manager pid enter the SATP — and the backup
snapshot itself is left untouched (it is written only on the cold-boot path)
while the marker page is zeroed. -/
theorem c2_clean_resume_kernel_entry :
    ∀ (pdSize : Nat) (tags : List KernelArgument) (marker : List Nat)
      (seed0 seed1 : Nat) (backup : List Nat) (cold : ColdBootInfo)
      (c : BootConfig),
      read_initial_config pdSize tags initialBootConfig = .ok c →
      (check_resume marker seed0 seed1).1.1 = true →
      boot_sequence pdSize tags marker seed0 seed1 backup cold =
        ⟨.started ⟨backup.getD 0 0, backup.getD 1 0, backup.getD 2 0,
            resume_satp (backup.getD 3 0) ((pageOf marker).getD 3 0),
            backup.getD 4 0, backup.getD 5 0, backup.getD 6 0 != 0, true⟩,
          [.parseKernelArgs, .checkResumeMarker, .startKernel],
          backup, List.replicate 1024 0⟩ := by
  intro pdSize tags marker seed0 seed1 backup cold c hparse hclean
  simp only [boot_sequence, hparse]
  simp only [check_resume] at hclean ⊢
  simp [hclean]

/-- Closed instance of the amended C2 on a concrete clean marker whose
recorded pid is 3. -/
theorem c2_clean_resume_kernel_entry_witness :
    boot_sequence 52 witnessTags (mkCleanMarker 5 6 3) 5 6 c2Backup witnessCold =
      ⟨.started ⟨c2Backup.getD 0 0, c2Backup.getD 1 0, c2Backup.getD 2 0,
          resume_satp (c2Backup.getD 3 0) ((pageOf (mkCleanMarker 5 6 3)).getD 3 0),
          c2Backup.getD 4 0, c2Backup.getD 5 0, c2Backup.getD 6 0 != 0, true⟩,
        [.parseKernelArgs, .checkResumeMarker, .startKernel],
        c2Backup, List.replicate 1024 0⟩ :=
  c2_clean_resume_kernel_entry 52 witnessTags (mkCleanMarker 5 6 3) 5 6 c2Backup
    witnessCold ⟨0x40000000, 0x1000000, false, false, false, [], 1⟩
    rfl (by decide)

/-- Statement, following the spec's words, of when argument parsing must
succeed: the first tag is the "XArg" header of size exactly 20 with its four
payload words present, exactly one kernel descriptor follows it, every kernel
descriptor has the ProgramDescription size, every boot-flag tag carries its
flag word (an empty payload is the index-out-of-bounds panic), every
initial-process descriptor has size at least 4, and at least one
initial-process descriptor is present. -/
def tagStreamOkSpec (pdSize : Nat) (tags : List KernelArgument) : Prop :=
  tags ≠ [] ∧
  (tags.headD ⟨0, 0, []⟩).name = xargTag ∧
  (tags.headD ⟨0, 0, []⟩).size = 20 ∧
  4 ≤ (tags.headD ⟨0, 0, []⟩).data.length ∧
  tags.tail.countP (fun t => t.name == xkrnTag) = 1 ∧
  (∀ t ∈ tags.tail, t.name = xkrnTag → t.size = pdSize) ∧
  (∀ t ∈ tags.tail, t.name = bflgTag → t.data ≠ []) ∧
  (∀ t ∈ tags.tail, isInitTag t = true → 4 ≤ t.size) ∧
  (∃ t ∈ tags.tail, isInitTag t = true)

/-- Boot-flag decoding never touches the SRAM fields. -/
theorem applyBflg_sram (cfg : BootConfig) (flags : Nat) :
    (applyBflg cfg flags).sram_start = cfg.sram_start ∧
    (applyBflg cfg flags).sram_size = cfg.sram_size := by
  unfold applyBflg
  split_ifs <;> simp

/-- Success of the tag-walking loop, characterized over any starting flags:
it returns `ok` exactly when the remaining tags carry exactly one kernel
descriptor counting an already-seen one, every kernel descriptor has the
expected size, every boot-flag tag has a nonempty payload, every
initial-process descriptor has size at least 4, and an initial process was
or will be seen. -/
theorem readTagsLoop_ok_iff (pdSize : Nat) :
    ∀ (l : List KernelArgument) (cfg : BootConfig) (kseen iseen : Bool),
      (∃ c, readTagsLoop pdSize l cfg kseen iseen = .ok c) ↔
        (l.countP (fun t => t.name == xkrnTag) + (if kseen then 1 else 0) = 1 ∧
         (∀ t ∈ l, t.name = xkrnTag → t.size = pdSize) ∧
         (∀ t ∈ l, t.name = bflgTag → t.data ≠ []) ∧
         (∀ t ∈ l, isInitTag t = true → 4 ≤ t.size) ∧
         (iseen = true ∨ ∃ t ∈ l, isInitTag t = true)) := by
  intro l
  induction l with
  | nil =>
    intro cfg kseen iseen
    cases kseen <;> cases iseen <;> simp [readTagsLoop]
  | cons t rest ih =>
    intro cfg kseen iseen
    by_cases hc1 : (t.name == mrexTag) = true
    · have hname : t.name = mrexTag := by simpa using hc1
      have hx : t.name ≠ xkrnTag := by rw [hname]; decide
      have hb : t.name ≠ bflgTag := by rw [hname]; decide
      have hi : isInitTag t = false := by
        simp [isInitTag, hname, mrexTag, inieTag, inifTag]
      simp only [readTagsLoop, hc1, if_true]
      rw [ih]
      simp [List.countP_cons, hx, hb, hi]
    · by_cases hc2 : (t.name == bflgTag) = true
      · have hname : t.name = bflgTag := by simpa using hc2
        have hx : t.name ≠ xkrnTag := by rw [hname]; decide
        have hi : isInitTag t = false := by
          simp [isInitTag, hname, bflgTag, inieTag, inifTag]
        cases hd : t.data with
        | nil =>
          simp only [readTagsLoop, hc1, Bool.false_eq_true, if_false, hc2, if_true,
            hd]
          constructor
          · rintro ⟨c, hc⟩
            cases hc
          · rintro ⟨-, -, hbp, -⟩
            exact absurd hd (hbp t (by simp) hname)
        | cons flags ds =>
          simp only [readTagsLoop, hc1, Bool.false_eq_true, if_false, hc2, if_true,
            hd]
          rw [ih]
          simp [List.countP_cons, hx, hi, hd]
      · by_cases hc3 : (t.name == xkrnTag) = true
        · have hname : t.name = xkrnTag := by simpa using hc3
          have hb : t.name ≠ bflgTag := by rw [hname]; decide
          have hi : isInitTag t = false := by
            simp [isInitTag, hname, xkrnTag, inieTag, inifTag]
          cases kseen with
          | true =>
            simp only [readTagsLoop, hc1, Bool.false_eq_true, if_false, hc2, hc3,
              if_true]
            simp [List.countP_cons, hc3]
          | false =>
            by_cases hsz : (t.size != pdSize) = true
            · have hne : t.size ≠ pdSize := by simpa using hsz
              simp only [readTagsLoop, hc1, Bool.false_eq_true, if_false, hc2, hc3,
                if_true, hsz]
              simp [List.countP_cons, hname, hne]
            · have heq : t.size = pdSize := by simpa using hsz
              simp only [readTagsLoop, hc1, Bool.false_eq_true, if_false, hc2, hc3,
                if_true, hsz]
              rw [ih]
              simp [List.countP_cons, hc3, hb, hi, heq]
        · by_cases hc4 : isInitTag t = true
          · have hx : t.name ≠ xkrnTag := by
              intro hn
              rw [hn] at hc3
              simp at hc3
            have hb : t.name ≠ bflgTag := by
              intro hn
              rw [hn] at hc2
              simp at hc2
            by_cases hsz : t.size < 4
            · simp only [readTagsLoop, hc1, Bool.false_eq_true, if_false, hc2, hc3,
                hc4, if_true, if_pos hsz]
              constructor
              · rintro ⟨c, hc⟩
                cases hc
              · rintro ⟨-, -, -, hin, -⟩
                have := hin t (by simp) hc4
                omega
            · simp only [readTagsLoop, hc1, Bool.false_eq_true, if_false, hc2, hc3,
                hc4, if_true, if_neg hsz]
              rw [ih]
              have h4 : 4 ≤ t.size := by omega
              simp [List.countP_cons, hc3, hc4, hx, hb, h4]
          · have hi : isInitTag t = false := by simpa using hc4
            simp only [readTagsLoop, hc1, Bool.false_eq_true, if_false, hc2, hc3,
              hc4, if_false]
            rw [ih]
            have hx : t.name ≠ xkrnTag := by
              intro hn
              rw [hn] at hc3
              simp at hc3
            have hb : t.name ≠ bflgTag := by
              intro hn
              rw [hn] at hc2
              simp at hc2
            simp [List.countP_cons, hx, hb, hi]

/-- The tag-walking loop never changes the SRAM fields recorded from the
XArg header. -/
theorem readTagsLoop_sram (pdSize : Nat) :
    ∀ (l : List KernelArgument) (cfg : BootConfig) (kseen iseen : Bool)
      (c : BootConfig),
      readTagsLoop pdSize l cfg kseen iseen = .ok c →
      c.sram_start = cfg.sram_start ∧ c.sram_size = cfg.sram_size := by
  intro l
  induction l with
  | nil =>
    intro cfg kseen iseen c h
    cases kseen <;> cases iseen <;> simp [readTagsLoop] at h
    simp [← h]
  | cons t rest ih =>
    intro cfg kseen iseen c h
    by_cases hc1 : (t.name == mrexTag) = true
    · simp only [readTagsLoop, hc1, if_true] at h
      simpa using ih _ _ _ _ h
    · by_cases hc2 : (t.name == bflgTag) = true
      · cases hd : t.data with
        | nil =>
          simp [readTagsLoop, hc1, hc2, hd] at h
        | cons flags ds =>
          simp only [readTagsLoop, hc1, Bool.false_eq_true, if_false, hc2, if_true,
            hd] at h
          have := ih _ _ _ _ h
          rw [(applyBflg_sram cfg _).1, (applyBflg_sram cfg _).2] at this
          exact this
      · by_cases hc3 : (t.name == xkrnTag) = true
        · cases kseen with
          | true =>
            simp [readTagsLoop, hc1, hc2, hc3] at h
          | false =>
            by_cases hsz : (t.size != pdSize) = true
            · simp [readTagsLoop, hc1, hc2, hc3, hsz] at h
            · simp only [readTagsLoop, hc1, Bool.false_eq_true, if_false, hc2, hc3,
                if_true, hsz] at h
              exact ih _ _ _ _ h
        · by_cases hc4 : isInitTag t = true
          · by_cases hsz : t.size < 4
            · simp [readTagsLoop, hc1, hc2, hc3, hc4, hsz] at h
            · simp only [readTagsLoop, hc1, Bool.false_eq_true, if_false, hc2, hc3,
                hc4, if_true, if_neg hsz] at h
              simpa using ih _ _ _ _ h
          · simp only [readTagsLoop, hc1, Bool.false_eq_true, if_false, hc2, hc3,
              hc4, if_false] at h
            exact ih _ _ _ _ h

/-- C5: `read_initial_config` succeeds exactly on the tag streams admitted by
the spec — first tag "XArg" of size exactly 20 with its payload words
present, exactly one kernel descriptor of the ProgramDescription size, every
boot-flag tag carrying its flag word, no undersized initial-process
descriptor, and at least one initial-process descriptor — so it panics on a
duplicate or wrongly-sized kernel descriptor and when either mandatory
descriptor is missing (indexing an absent payload word is the Rust
index-out-of-bounds panic, also fatal); on success the XArg payload words 2
and 3 become `sram_start` and `sram_size`; and every such parse failure
aborts `boot_sequence` with only the parse action performed, before any RAM
is cleared and before the marker is touched. -/
theorem c5_read_initial_config_characterization :
    (∀ (pdSize : Nat) (tags : List KernelArgument) (cfg0 : BootConfig),
       (∃ c, read_initial_config pdSize tags cfg0 = .ok c) ↔
         tagStreamOkSpec pdSize tags) ∧
    (∀ (pdSize : Nat) (xarg : KernelArgument) (rest : List KernelArgument)
       (cfg0 c : BootConfig),
       read_initial_config pdSize (xarg :: rest) cfg0 = .ok c →
       c.sram_start = xarg.data.getD 2 0 ∧ c.sram_size = xarg.data.getD 3 0) ∧
    (∀ (pdSize : Nat) (tags : List KernelArgument) (marker : List Nat)
       (seed0 seed1 : Nat) (backup : List Nat) (cold : ColdBootInfo)
       (e : ParseErr),
       read_initial_config pdSize tags initialBootConfig = .error e →
       boot_sequence pdSize tags marker seed0 seed1 backup cold =
         ⟨.panicked e, [.parseKernelArgs], backup, marker⟩) := by
  refine ⟨?_, ?_, ?_⟩
  · intro pdSize tags cfg0
    cases tags with
    | nil => simp [read_initial_config, tagStreamOkSpec]
    | cons xarg rest =>
      by_cases hbad : (xarg.name != xargTag || xarg.size != 20) = true
      · simp only [read_initial_config, hbad, if_true]
        simp only [Bool.or_eq_true, bne_iff_ne] at hbad
        constructor
        · rintro ⟨c, hc⟩
          cases hc
        · rintro ⟨-, hn, hs, -⟩
          simp only [List.headD_cons] at hn hs
          rcases hbad with hb | hb
          · exact absurd hn hb
          · exact absurd hs hb
      · by_cases hlen : xarg.data.length < 4
        · simp only [read_initial_config, hbad, Bool.false_eq_true, if_false,
            if_pos hlen]
          constructor
          · rintro ⟨c, hc⟩
            cases hc
          · rintro ⟨-, -, -, h4, -⟩
            simp only [List.headD_cons] at h4
            omega
        · simp only [read_initial_config, hbad, Bool.false_eq_true, if_false,
            if_neg hlen]
          rw [readTagsLoop_ok_iff]
          simp only [Bool.or_eq_true, bne_iff_ne, not_or, not_not] at hbad
          have h4 : 4 ≤ xarg.data.length := by omega
          simp [tagStreamOkSpec, hbad.1, hbad.2, h4]
  · intro pdSize xarg rest cfg0 c h
    by_cases hbad : (xarg.name != xargTag || xarg.size != 20) = true
    · simp [read_initial_config, hbad] at h
    · by_cases hlen : xarg.data.length < 4
      · simp [read_initial_config, hbad, hlen] at h
      · simp only [read_initial_config, hbad, Bool.false_eq_true, if_false,
          if_neg hlen] at h
        simpa using readTagsLoop_sram pdSize rest _ false false c h
  · intro pdSize tags marker seed0 seed1 backup cold e h
    simp [boot_sequence, h]

/-- Closed instance of C5: the well-formed witness stream parses (via the
characterization), its SRAM fields are read from the header payload, and an
empty stream makes `boot_sequence` panic having only attempted the parse. -/
theorem c5_read_initial_config_characterization_witness :
    (∃ c, read_initial_config 52 witnessTags initialBootConfig = .ok c) ∧
    (⟨0x40000000, 0x1000000, false, false, false, [], 1⟩ : BootConfig).sram_start =
        (witnessTags.headD ⟨0, 0, []⟩).data.getD 2 0 ∧
    boot_sequence 52 [] (mkCleanMarker 5 6 3) 5 6 c2Backup witnessCold =
      ⟨.panicked .noInitialTag, [.parseKernelArgs], c2Backup, mkCleanMarker 5 6 3⟩ :=
  ⟨(c5_read_initial_config_characterization.1 52 witnessTags
      initialBootConfig).mpr (by unfold tagStreamOkSpec; decide),
   (c5_read_initial_config_characterization.2.1 52 (witnessTags.headD ⟨0, 0, []⟩)
      [⟨xkrnTag, 52, [0, 0, 0]⟩, ⟨inieTag, 8, [0, 0]⟩] initialBootConfig
      ⟨0x40000000, 0x1000000, false, false, false, [], 1⟩ rfl).1,
   c5_read_initial_config_characterization.2.2 52 [] (mkCleanMarker 5 6 3) 5 6
     c2Backup witnessCold .noInitialTag rfl⟩

end Xous
